import Mathlib

/-!
Shallow embedding of src/ApplySyntax.py (Sublime Text syntax-detection plugin).

Modelling conventions:
* Python regular-expression patterns are modelled by `PyPattern`: the empty
  pattern string (falsy in `if regexp and subject:`), a nonempty pattern that
  fails to compile (raises `re.error` at `re.match`), or a well-formed pattern
  carried as a `PyRegex` — its parse split into the list of top-level
  alternatives, so that the textual splice the `binary` rule performs can be
  modelled faithfully.  `re.match(p, s)` is anchored at
  position 0 and succeeds when some prefix of `s` is in the language of `p`;
  it is implemented below by Brzozowski derivatives (`reAccepts`).  A leading
  `^` in a pattern is the identity under this anchored semantics and is not
  represented in the AST; the escape `\!` denotes the literal `!`.
* Exception-driven control flow becomes `Except PyErr`.
* The host environment (resource loader, file reader, the outcome of
  `exec`/`eval` on externally supplied sources) is an explicit `Env` record of
  functions; `sublime.load_resource` / `open(...).read()` failure is `none`.
* The platform is POSIX (`sublime.platform() != "windows"`, `os.path.sep = "/"`).
-/

namespace ApplySyntax

/-- Regex AST: the fragment needed for the patterns the plugin constructs
(literal characters, `.`, concatenation, alternation, `*`, and `+` as
`cat r (star r)`). -/
inductive Regex where
  | emp : Regex
  | eps : Regex
  | chr : Char → Regex
  | any : Regex
  | cat : Regex → Regex → Regex
  | alt : Regex → Regex → Regex
  | star : Regex → Regex
deriving DecidableEq, Repr

/-- Does the regex accept the empty string? -/
def Regex.nullable : Regex → Bool
  | .emp => false
  | .eps => true
  | .chr _ => false
  | .any => false
  | .cat r s => r.nullable && s.nullable
  | .alt r s => r.nullable || s.nullable
  | .star _ => true

/-- Brzozowski derivative of a regex by a character. -/
def Regex.deriv : Regex → Char → Regex
  | .emp, _ => .emp
  | .eps, _ => .emp
  | .chr d, c => if d = c then .eps else .emp
  | .any, _ => .eps
  | .cat r s, c => if r.nullable then .alt (.cat (r.deriv c) s) (s.deriv c) else .cat (r.deriv c) s
  | .alt r s, c => .alt (r.deriv c) (s.deriv c)
  | .star r, c => .cat (r.deriv c) (.star r)

/-- Semantics of `re.match`: the pattern matches anchored at position 0 and need
not consume the whole subject, i.e. some prefix of the subject is in the
language of the regex. -/
def reAccepts (r : Regex) : List Char → Bool
  | [] => r.nullable
  | c :: cs => r.nullable || reAccepts (r.deriv c) cs

/-- The regex `r+` as used by `(?:.+)` in the source. -/
def rePlus (r : Regex) : Regex := .cat r (.star r)

/-- The regex of a literal string. -/
def litString (s : String) : Regex :=
  s.data.foldr (fun c r => Regex.cat (.chr c) r) .eps

/-- The prefix the SOURCE concatenates in front of a `binary` value
(line 191: `"^#\\!(?:.+)" + rule.get("binary")`): literal `#`, literal `!`
(`\!` escapes to `!`), then one-or-more arbitrary characters. -/
def codeShebang : Regex := .cat (.chr '#') (.cat (.chr '!') (rePlus .any))

/-- Modelled from the spec for comparison only: the spec claims the `binary`
value is prefixed with `^#!.*`, i.e. zero-or-more arbitrary characters after
the shebang. -/
def specShebangPattern : Regex := .cat (.chr '#') (.cat (.chr '!') (.star .any))

/-- Exceptions that the Python code can raise or swallow. -/
inductive PyErr where
  | patternError : PyErr
  | loadError : PyErr
  | execError : PyErr
  | evalError : PyErr
  | typeError : PyErr
deriving DecidableEq, Repr

/-- A WELL-FORMED nonempty Python pattern string, represented by its sequence
of top-level (unparenthesized) alternatives, leftmost first: the string
`a|b|c` is `⟨a, [b, c]⟩`.  An `alt` node inside `first` or inside an element
of `rest` stands for a parenthesized group such as `(?:a|b)`.  The distinction
matters because regex alternation binds loosest: prefixing a string onto the
pattern (as the `binary` rule does) attaches only to the leftmost top-level
alternative. -/
structure PyRegex where
  first : Regex
  rest : List Regex
deriving DecidableEq, Repr

/-- The regex denoted by the whole pattern string: the alternation of its
top-level alternatives (left-associated, as parsed). -/
def PyRegex.toRegex (p : PyRegex) : Regex := p.rest.foldl Regex.alt p.first

/-- A Python regex pattern string: the empty string (falsy), a nonempty string
that does not compile (`re.error` when matched), or a nonempty string with its
parse. -/
inductive PyPattern where
  | emptyStr : PyPattern
  | bad : PyPattern
  | re : PyRegex → PyPattern
deriving DecidableEq, Repr

/-- The `function` record of a rule: `{"function": {"source": ..., "name": ...}}`.
`procedureName` is a required string per the configuration schema. -/
structure FunctionSpec where
  source : Option String
  name : String
deriving DecidableEq, Repr

/-- One rule dictionary.  `syntax_matches` dispatches on the key `"function"`;
`regexp_matches` then checks `first_line`, `binary`, `file_name` in order and
returns `False` when none is present (`Rule.empty`). -/
inductive Rule where
  | function : FunctionSpec → Rule
  | first_line : PyPattern → Rule
  | binary : PyPattern → Rule
  | file_name : PyPattern → Rule
  | empty : Rule
deriving DecidableEq, Repr

/-- One entry of the `syntaxes` / `default_syntaxes` settings lists. -/
structure SyntaxEntry where
  name : Option String
  matchMode : Option String
  rules : List Rule
deriving DecidableEq, Repr

/-- The per-evaluation scratch state (`self.file_name`, `self.first_line`).
`file_name` is `view.file_name()`, which is `None` for a never-saved buffer;
`first_line` is `view.substr(view.line(0))`, always a string. -/
structure Ctx where
  file_name : Option String
  first_line : String
deriving Repr

/-- The host environment: resource loading, direct file reading, and the
outcome of running externally supplied predicate sources.  `none` / `true`
encode a raised exception in the corresponding Python call. -/
structure Env where
  loadResource : String → Option String
  readFile : String → Option String
  execFails : String → Bool
  evalOutcome : String → String → Option Bool

/-- Evaluation of `re.match(regexp, subject)` guarded by
`if regexp and subject:` (lines 198-201): if the pattern string or the subject
is empty/`None` the result is `False` without compiling the pattern; otherwise
a malformed pattern raises `re.error`, and a well-formed one matches. -/
def patMatch (p : PyPattern) (subj : Option String) : Except PyErr Bool :=
  match subj with
  | none => .ok false
  | some s =>
    if s.isEmpty then .ok false
    else
      match p with
      | .emptyStr => .ok false
      | .bad => .error .patternError
      | .re p => .ok (reAccepts p.toRegex s.data)

/-- The textual splice of the prefix `"^#\\!(?:.+)"` onto a well-formed
pattern string: because alternation binds loosest and the prefix ends in a
complete group, the prefix concatenates onto the leftmost top-level
alternative only, leaving the remaining alternatives bare — `a|b` becomes
`(^#\\!(?:.+)a)|b`, which can match a first line with no shebang at all. -/
def spliceShebang (p : PyRegex) : PyRegex :=
  ⟨.cat codeShebang p.first, p.rest⟩

/-- The effective pattern of a `binary` rule: the source prepends the string
`"^#\\!(?:.+)"` to the value by STRING concatenation.  Splicing onto the
empty string yields the prefix itself; splicing onto a well-formed pattern is
`spliceShebang`.  Splicing before a malformed remainder is modelled as still
malformed — true of every malformed string representable here; the abstract
`bad` does not distinguish the corner of strings malformed solely by a leading
quantifier token, which the splice would repair. -/
def effectiveBinary : PyPattern → PyPattern
  | .emptyStr => .re ⟨codeShebang, []⟩
  | .bad => .bad
  | .re p => .re (spliceShebang p)

/-- Model of `regexp_matches` (lines 185-201): pick the subject and pattern by key,
then match.  Note there is no exception handling in this method. -/
def regexp_matches (ctx : Ctx) (r : Rule) : Except PyErr Bool :=
  match r with
  | .first_line p => patMatch p (some ctx.first_line)
  | .binary p => patMatch (effectiveBinary p) (some ctx.first_line)
  | .file_name p => patMatch p ctx.file_name
  | .function _ => .ok false
  | .empty => .ok false

/-- POSIX `os.path.isabs`. -/
def isabs (p : String) : Bool := p.startsWith "/"

/-- The check `re.match(r"^Packages(?:\\|/)", path_to_file) is None` (line 159),
negated: does the path already target the packaged namespace? -/
def inPackages (p : String) : Bool :=
  p.startsWith "Packages/" || p.startsWith "Packages\\"

/-- The value of `self.plugin_dir` (line 21). -/
def pluginDir : String := "Packages/ApplySyntax"

/-- Model of `get_function` (lines 134-147): fetch the source text, either by
`sublime.load_resource` or by reading the file directly; on failure reraise in
strict mode, otherwise yield `None`. -/
def get_function (env : Env) (reraise : Bool) (p : String) (readDirect : Bool) :
    Except PyErr (Option String) :=
  match (if readDirect then env.readFile p else env.loadResource p) with
  | some s => .ok (some s)
  | none => if reraise then .error .loadError else .ok none

/-- The path the source computes for a function rule (lines 150-155): use
`source` when present and nonempty, else `name + ".py"`. -/
def funPath (f : FunctionSpec) : String :=
  match f.source with
  | none => f.name ++ ".py"
  | some s => if s.isEmpty then f.name ++ ".py" else s

/-- Lines 157-163: an absolute path is read directly from the filesystem; a
relative one is loaded as a resource, prefixed with the plugin directory unless
it already starts with `Packages`. -/
def fetchSource (env : Env) (reraise : Bool) (f : FunctionSpec) :
    Except PyErr (Option String) :=
  if isabs (funPath f) then get_function env reraise (funPath f) true
  else if inPackages (funPath f) then get_function env reraise (funPath f) false
  else get_function env reraise (pluginDir ++ "/" ++ funPath f) false

/-- Model of `function_matches` (lines 149-183).  A missing source yields `False`; the
`exec` of the source and the `eval` of the call expression built from the
procedure name and the quoted file name (`evalOutcome name file_name`) are
each wrapped in `try/except` that reraises in strict mode and yields `False`
otherwise.  When `self.file_name` is `None` the string concatenation inside
the `eval` `try` block raises `TypeError`, caught by the same handler. -/
def function_matches (env : Env) (reraise : Bool) (ctx : Ctx) (f : FunctionSpec) :
    Except PyErr Bool :=
  match fetchSource env reraise f with
  | .error e => .error e
  | .ok none => .ok false
  | .ok (some src) =>
    if env.execFails src then (if reraise then .error .execError else .ok false)
    else
      match ctx.file_name with
      | none => if reraise then .error .evalError else .ok false
      | some fn =>
        match env.evalOutcome f.name fn with
        | none => if reraise then .error .evalError else .ok false
        | some b => .ok b

/-- The dispatch at lines 110-113: a rule containing the key `"function"`
goes to `function_matches`, every other rule to `regexp_matches`. -/
def evalRule (env : Env) (reraise : Bool) (ctx : Ctx) : Rule → Except PyErr Bool
  | .function f => function_matches env reraise ctx f
  | r => regexp_matches ctx r

/-- The loop of `syntax_matches` (lines 109-132): in all-mode stop at the
first `False`, in any-mode stop at the first `True`; an exception raised by a
rule propagates (there is no handler in `syntax_matches`).  The fall-through
value is `True` in all-mode and `False` in any-mode. -/
def rulesLoop (env : Env) (reraise : Bool) (ctx : Ctx) (matchAll : Bool) :
    List Rule → Except PyErr Bool
  | [] => .ok matchAll
  | r :: rs =>
    match evalRule env reraise ctx r with
    | .error e => .error e
    | .ok b =>
      if matchAll then
        if b then rulesLoop env reraise ctx matchAll rs else .ok false
      else
        if b then .ok true else rulesLoop env reraise ctx matchAll rs

/-- Model of `syntax_matches` (lines 105-132): `match_all = syntax.get("match") == "all"`,
then the loop over `syntax.get("rules")`. -/
def syntax_matches (env : Env) (reraise : Bool) (ctx : Ctx) (s : SyntaxEntry) :
    Except PyErr Bool :=
  rulesLoop env reraise ctx (s.matchMode == some "all") s.rules

/-- Instrumented copy of `rulesLoop` that additionally counts how many rules
were evaluated, to make the short-circuit behaviour observable. -/
def rulesLoopCount (env : Env) (reraise : Bool) (ctx : Ctx) (matchAll : Bool) :
    List Rule → Except PyErr Bool × Nat
  | [] => (.ok matchAll, 0)
  | r :: rs =>
    match evalRule env reraise ctx r with
    | .error e => (.error e, 1)
    | .ok b =>
      if matchAll then
        if b then
          ((rulesLoopCount env reraise ctx matchAll rs).1,
           (rulesLoopCount env reraise ctx matchAll rs).2 + 1)
        else (.ok false, 1)
      else
        if b then (.ok true, 1)
        else
          ((rulesLoopCount env reraise ctx matchAll rs).1,
           (rulesLoopCount env reraise ctx matchAll rs).2 + 1)

/-- The selection loop of `detect_syntax` (lines 49-53): stop on the first
syntax that matches; an exception raised by `syntax_matches` propagates. -/
def selectLoop (env : Env) (reraise : Bool) (ctx : Ctx) :
    List SyntaxEntry → Except PyErr (Option SyntaxEntry)
  | [] => .ok none
  | e :: es =>
    match syntax_matches env reraise ctx e with
    | .error err => .error err
    | .ok true => .ok (some e)
    | .ok false => selectLoop env reraise ctx es

/-- Model of `load_syntaxes` (lines 94-103): an absent (`None`) list on either side is
replaced by `[]`; the result is `user_syntaxes + default_syntaxes`. -/
def load_syntaxes (user defaults : Option (List SyntaxEntry)) : List SyntaxEntry :=
  user.getD [] ++ defaults.getD []

/-- POSIX `os.path.basename`: everything after the last `/`. -/
def posix_basename (p : String) : String :=
  ⟨(p.data.reverse.takeWhile (fun c => c ≠ '/')).reverse⟩

/-- POSIX `os.path.dirname`: `p[:i+1]` for the last `/` at index `i`, with
trailing slashes stripped unless the head consists only of slashes. -/
def posix_dirname (p : String) : String :=
  let head := (p.data.reverse.dropWhile (fun c => c ≠ '/')).reverse
  if head ≠ [] ∧ ¬ head.all (fun c => c = '/') then
    ⟨(head.reverse.dropWhile (fun c => c = '/')).reverse⟩
  else ⟨head⟩

/-- Model of `sublime_format_path` (lines 7-10) on a non-Windows platform: replace every
backslash by a forward slash (the Windows drive-letter branch is not taken). -/
def sublime_format_path (pth : String) : String :=
  ⟨pth.data.map (fun c => if c = '\\' then '/' else c)⟩

/-- The resource path `set_syntax` composes for a logical name (lines 69-76):
split into directory and base name, fall back to the base name as directory
when there is none, append `.tmLanguage`, and normalise separators. -/
def resourcePath (name : String) : String :=
  let path := posix_dirname name
  let base := posix_basename name
  let path := if path.isEmpty then base else path
  sublime_format_path ("Packages/" ++ path ++ "/" ++ base ++ ".tmLanguage")

/-- The view state `set_syntax` reads and writes: the `"syntax"` setting
(`None` when unset), plus the fields `detect_syntax` consults. -/
structure View where
  isScratch : Bool
  fileNameVal : Option String
  firstLine : String
  currentSetting : Option String
deriving DecidableEq, Repr

/-- Outcome of `set_syntax`: the branch taken (and hence which message, if
any, was printed). -/
inductive SetOutcome where
  | applied : SetOutcome
  | skippedSame : SetOutcome
  | notFound : SetOutcome
deriving DecidableEq, Repr

/-- Model of `set_syntax` (lines 62-88).  The method never consults
`self.reraise_exceptions`; the bare `except` around `sublime.load_resource`
always swallows a missing resource.  `reraise` is carried as a parameter to
make that independence statable.  On success `view.set_syntax_file` updates
the view's `"syntax"` setting to the new path. -/
def set_syntax (_reraise : Bool) (resExists : String → Bool) (v : View)
    (name : String) : SetOutcome × View :=
  if v.currentSetting == some (resourcePath name) then (.skippedSame, v)
  else if resExists (resourcePath name) then
    (.applied, { v with currentSetting := some (resourcePath name) })
  else (.notFound, v)

/-- The settings consumed by `load_syntaxes` (`reraise` is the truthiness of
the `reraise_exceptions` value, `False` when the key is absent). -/
structure Settings where
  reraise : Bool
  default_syntaxes : Option (List SyntaxEntry)
  syntaxes : Option (List SyntaxEntry)

/-- The guard at line 40 tests `not view.file_name` on the BOUND METHOD
`view.file_name` itself, not on its result `view.file_name()`; a bound method
object is always truthy, so this half of the guard is constantly false. -/
def fileNameTruthy (_v : View) : Bool := true

/-- Outcome of one `detect_syntax` run. -/
inductive DetectOutcome where
  | skipped : DetectOutcome
  | noSyntaxes : DetectOutcome
  | noMatch : DetectOutcome
  | applied : SetOutcome → DetectOutcome
  | raised : PyErr → DetectOutcome
deriving DecidableEq, Repr

/-- Model of `detect_syntax` (lines 39-53): the (buggy) scratch/file-name guard, cache
reset, `load_syntaxes`, the empty-rule-set early return, the first-match scan,
and `set_syntax` on the winning entry's `name` (a `None` name would raise
`TypeError` inside `os.path.dirname`). -/
def detect_syntax (env : Env) (st : Settings) (resExists : String → Bool)
    (v : View) : DetectOutcome × View :=
  if v.isScratch || ! fileNameTruthy v then (.skipped, v)
  else
    let ctx : Ctx := ⟨v.fileNameVal, v.firstLine⟩
    let syntaxes := load_syntaxes st.syntaxes st.default_syntaxes
    if syntaxes.isEmpty then (.noSyntaxes, v)
    else
      match selectLoop env st.reraise ctx syntaxes with
      | .error e => (.raised e, v)
      | .ok none => (.noMatch, v)
      | .ok (some entry) =>
        match entry.name with
        | none => (.raised .typeError, v)
        | some n =>
          let r := set_syntax st.reraise resExists v n
          (.applied r.1, r.2)

/-! ## Concrete fixtures used by witnesses and counterexamples -/

/-- An environment in which every resource load, file read, `exec` and `eval`
fails. -/
def env0 : Env := ⟨fun _ => none, fun _ => none, fun _ => true, fun _ _ => none⟩

/-- A context for a saved Python-like file whose first line is `#!x`. -/
def ctx0 : Ctx := ⟨some "a.py", "#!x"⟩

/-- A function rule with no `source` field. -/
def f0 : FunctionSpec := ⟨none, "f"⟩

/-- The regex of the literal string `python`. -/
def pyLit : Regex := litString "python"

/-- An entry in all-mode with no rules. -/
def entryAllEmpty : SyntaxEntry := ⟨some "Y", some "all", []⟩

/-- An entry in any-mode with no rules. -/
def entryAnyEmpty : SyntaxEntry := ⟨some "A", some "any", []⟩

/-- An entry with no `match` key and no rules. -/
def entryNoneEmpty : SyntaxEntry := ⟨some "B", none, []⟩

/-- An entry whose single rule has no recognised key, hence never matches. -/
def entryNo : SyntaxEntry := ⟨some "N", none, [Rule.empty]⟩

/-- An entry matching any first line that starts with `#`. -/
def entryHash : SyntaxEntry :=
  ⟨some "X", none, [Rule.first_line (PyPattern.re ⟨Regex.chr '#', []⟩)]⟩

/-- A rule that evaluates true in `ctx0` (its pattern accepts the empty
prefix). -/
def ruleTrue : Rule := Rule.first_line (PyPattern.re ⟨Regex.eps, []⟩)

/-- A resource-existence oracle that always succeeds. -/
def exAll : String → Bool := fun _ => true

/-- A resource-existence oracle that always fails. -/
def exNone : String → Bool := fun _ => false

/-- A never-saved, non-scratch view: `view.file_name()` is `None`. -/
def v0 : View := ⟨false, none, "#!x", none⟩

/-- A view whose active syntax is already the composed path for `JSON`. -/
def vJSON : View := ⟨false, some "/tmp/x", "", some (resourcePath "JSON")⟩

example : resourcePath "JSON" = "Packages/JSON/JSON.tmLanguage" := rfl

example : resourcePath "Web/HTML" = "Packages/Web/HTML.tmLanguage" := rfl

example : reAccepts (Regex.cat codeShebang pyLit) "#!/usr/bin/python3".data = true := by decide

example : reAccepts (Regex.cat codeShebang pyLit) "#!python".data = false := by decide

example : reAccepts (Regex.cat specShebangPattern pyLit) "#!python".data = true := by decide

example : syntax_matches env0 false ctx0 entryHash = .ok true := rfl

example : syntax_matches env0 false ctx0 entryNo = .ok false := rfl

/-! ## Helper lemmas -/

lemma get_function_default_ok (env : Env) (p : String) (rd : Bool) :
    ∃ o, get_function env false p rd = .ok o := by
  rcases h : (if rd then env.readFile p else env.loadResource p) with _ | s
  · exact ⟨none, by unfold get_function; rw [h]; rfl⟩
  · exact ⟨some s, by unfold get_function; rw [h]⟩

lemma fetchSource_default_ok (env : Env) (f : FunctionSpec) :
    ∃ o, fetchSource env false f = .ok o := by
  unfold fetchSource
  split
  · exact get_function_default_ok env _ _
  · split
    · exact get_function_default_ok env _ _
    · exact get_function_default_ok env _ _

lemma patMatch_ok (p : PyPattern) (hp : p ≠ PyPattern.bad) (subj : Option String) :
    ∃ b, patMatch p subj = .ok b := by
  rcases subj with _ | s
  · exact ⟨false, rfl⟩
  · unfold patMatch
    by_cases he : s.isEmpty
    · exact ⟨false, by simp [he]⟩
    · rcases p with _ | _ | pr
      · exact ⟨false, by simp [he]⟩
      · exact absurd rfl hp
      · exact ⟨reAccepts pr.toRegex s.data, by simp [he]⟩

lemma effectiveBinary_ne_bad (p : PyPattern) (hp : p ≠ PyPattern.bad) :
    effectiveBinary p ≠ PyPattern.bad := by
  rcases p with _ | _ | r
  · simp [effectiveBinary]
  · exact absurd rfl hp
  · simp [effectiveBinary]

/-! ## Claim C1 -/

/-- Claim C1 as the spec states it is FALSE: `regexp_matches` has no exception
handling, so in default mode (`reraise_exceptions = false`) an unparseable
pattern with a nonempty subject raises `re.error` into the selection loop
instead of evaluating to false.  Concrete input: a `first_line` rule with a
malformed pattern in context `ctx0` (first line `#!x`). -/
theorem c1_counterexample :
    evalRule env0 false ctx0 (Rule.first_line PyPattern.bad) =
      .error PyErr.patternError := rfl

/-- Claim C1 (amended): in default mode every ExternalPredicate failure —
unresolvable source, failing `exec`, failing `eval` — is swallowed and the
predicate evaluates to a boolean (`false` on failure), and a PatternPredicate
also never raises provided its pattern compiles (or is empty, or its subject
is empty/absent); only an unparseable nonempty pattern against a nonempty
subject escapes this containment (see the counterexample). -/
theorem c1_theorem (env : Env) (ctx : Ctx) (f : FunctionSpec) (p : PyPattern)
    (hp : p ≠ PyPattern.bad) :
    (∃ b, function_matches env false ctx f = .ok b) ∧
    (fetchSource env false f = .ok none → function_matches env false ctx f = .ok false) ∧
    (∃ b, regexp_matches ctx (Rule.first_line p) = .ok b) ∧
    (∃ b, regexp_matches ctx (Rule.binary p) = .ok b) ∧
    (∃ b, regexp_matches ctx (Rule.file_name p) = .ok b) := by
  refine ⟨?_, ?_, ?_, ?_, ?_⟩
  · obtain ⟨o, ho⟩ := fetchSource_default_ok env f
    unfold function_matches
    rw [ho]
    rcases o with _ | src
    · exact ⟨false, rfl⟩
    · by_cases hx : env.execFails src
      · exact ⟨false, by simp [hx]⟩
      · rcases hfn : ctx.file_name with _ | fn
        · exact ⟨false, by simp [hx, hfn]⟩
        · rcases hev : env.evalOutcome f.name fn with _ | b
          · exact ⟨false, by simp [hx, hfn, hev]⟩
          · exact ⟨b, by simp [hx, hfn, hev]⟩
  · intro h
    unfold function_matches
    rw [h]
  · exact patMatch_ok p hp (some ctx.first_line)
  · exact patMatch_ok (effectiveBinary p) (effectiveBinary_ne_bad p hp) (some ctx.first_line)
  · exact patMatch_ok p hp ctx.file_name

/-- Witness for C1's amended theorem at a concrete input. -/
theorem c1_theorem_w :
    (∃ b, function_matches env0 false ctx0 f0 = .ok b) ∧
    (fetchSource env0 false f0 = .ok none → function_matches env0 false ctx0 f0 = .ok false) ∧
    (∃ b, regexp_matches ctx0 (Rule.first_line PyPattern.emptyStr) = .ok b) ∧
    (∃ b, regexp_matches ctx0 (Rule.binary PyPattern.emptyStr) = .ok b) ∧
    (∃ b, regexp_matches ctx0 (Rule.file_name PyPattern.emptyStr) = .ok b) :=
  c1_theorem env0 ctx0 f0 PyPattern.emptyStr (by decide)

/-! ## Claim C2 -/

/-- The settings for the C2 run: one user-defined entry, no defaults. -/
def stC2 : Settings := ⟨false, none, some [entryHash]⟩

/-- Claim C2 is contradicted by the code: for the never-saved, non-scratch
view `v0` (where `view.file_name()` is `None`), `detect_syntax` does NOT skip —
it loads the rule set, evaluates the rule of `entryHash` against the first line,
and sets the syntax.  The guard `not view.file_name` (line 40) tests the bound
method object, which is always truthy, instead of calling it; the line's own
comment ("buffer has never been saved") shows the intended skip. -/
theorem c2_theorem :
    detect_syntax env0 stC2 exAll v0 =
      (DetectOutcome.applied SetOutcome.applied,
       { v0 with currentSetting := some "Packages/X/X.tmLanguage" }) := rfl

/-! ## Claim C3 -/

/-- A context whose first line is exactly `#!python`. -/
def ctxShebang : Ctx := ⟨none, "#!python"⟩

/-- The well-formed pattern string `python`: a single top-level alternative. -/
def pyValue : PyRegex := ⟨pyLit, []⟩

/-- The well-formed pattern string `a|b`: two top-level alternatives. -/
def abValue : PyRegex := ⟨.chr 'a', [.chr 'b']⟩

/-- Claim C3 as stated is FALSE at a concrete input: the claim's effective
pattern `^#!.*python` matches the first line `#!python`, but the code's
`binary` rule with value `python` evaluates to false there, because the source
concatenates `"^#\!(?:.+)"` — requiring at least ONE character between the
shebang and the value — not `^#!.*`. -/
theorem c3_counterexample :
    regexp_matches ctxShebang (Rule.binary (PyPattern.re pyValue)) = .ok false ∧
    reAccepts (Regex.cat specShebangPattern pyLit) "#!python".data = true :=
  ⟨rfl, by decide⟩

/-- Claim C3 (amended): a `binary` rule with a well-formed pattern `p` and a
nonempty first line evaluates the first line against the TEXTUAL splice of
`"^#\!(?:.+)"` onto `p`: the leftmost top-level alternative of `p` is
prefixed with `^#!.+` (at least one character between the shebang and it, not
the claimed `^#!.*`), while any remaining top-level alternatives are left bare
— alternation binds loosest — and can match a first line with no shebang.
For a single-alternative pattern the effective pattern is therefore
`^#!.+` followed by `p`: value `python` still matches `#!/usr/bin/python3`
and does not match `#!python`; value `a|b` matches the shebang-less first
line `b`. -/
theorem c3_theorem (p : PyRegex) (ctx : Ctx) (h : ctx.first_line ≠ "") :
    regexp_matches ctx (Rule.binary (PyPattern.re p)) =
      .ok (reAccepts (spliceShebang p).toRegex ctx.first_line.data) ∧
    (p.rest = [] → regexp_matches ctx (Rule.binary (PyPattern.re p)) =
      .ok (reAccepts (Regex.cat codeShebang p.first) ctx.first_line.data)) ∧
    reAccepts (spliceShebang pyValue).toRegex "#!/usr/bin/python3".data = true ∧
    reAccepts (spliceShebang pyValue).toRegex "#!python".data = false ∧
    reAccepts (spliceShebang abValue).toRegex "b".data = true := by
  have he : ctx.first_line.isEmpty = false := by
    rcases hb : ctx.first_line.isEmpty
    · rfl
    · exact absurd ((String.isEmpty_iff ctx.first_line).mp hb) h
  refine ⟨?_, ?_, by decide, by decide, by decide⟩
  · unfold regexp_matches effectiveBinary patMatch
    dsimp only
    rw [he]
    rfl
  · intro hr
    unfold regexp_matches effectiveBinary patMatch
    dsimp only
    rw [he]
    simp [spliceShebang, PyRegex.toRegex, hr]

/-- Witness for C3's amended theorem at concrete inputs. -/
theorem c3_theorem_w :
    (regexp_matches ctxShebang (Rule.binary (PyPattern.re pyValue)) =
      .ok (reAccepts (spliceShebang pyValue).toRegex ctxShebang.first_line.data)) ∧
    (regexp_matches ctxShebang (Rule.binary (PyPattern.re pyValue)) =
      .ok (reAccepts (Regex.cat codeShebang pyValue.first) ctxShebang.first_line.data)) ∧
    reAccepts (spliceShebang pyValue).toRegex "#!/usr/bin/python3".data = true ∧
    reAccepts (spliceShebang pyValue).toRegex "#!python".data = false ∧
    reAccepts (spliceShebang abValue).toRegex "b".data = true :=
  ⟨(c3_theorem pyValue ctxShebang (by decide)).1,
   (c3_theorem pyValue ctxShebang (by decide)).2.1 rfl,
   (c3_theorem pyValue ctxShebang (by decide)).2.2.1,
   (c3_theorem pyValue ctxShebang (by decide)).2.2.2.1,
   (c3_theorem pyValue ctxShebang (by decide)).2.2.2.2⟩

/-! ## Claim C4 -/

/-- Claim C4: selection returns the first entry, in order, whose rule
evaluates true — independently of whatever entries follow it, which are
therefore never evaluated — and returns nothing when every entry's rule
evaluates false. -/
theorem c4_theorem (env : Env) (reraise : Bool) (ctx : Ctx) :
    (∀ pre (e : SyntaxEntry) rest,
      (∀ x ∈ pre, syntax_matches env reraise ctx x = .ok false) →
      syntax_matches env reraise ctx e = .ok true →
      selectLoop env reraise ctx (pre ++ e :: rest) = .ok (some e)) ∧
    (∀ l, (∀ x ∈ l, syntax_matches env reraise ctx x = .ok false) →
      selectLoop env reraise ctx l = .ok none) := by
  constructor
  · intro pre e rest hpre he
    induction pre with
    | nil => simp [selectLoop, he]
    | cons x xs ih =>
      have hx := hpre x (by simp)
      simp only [List.cons_append, selectLoop, hx]
      exact ih (fun y hy => hpre y (List.mem_cons_of_mem x hy))
  · intro l hl
    induction l with
    | nil => rfl
    | cons x xs ih =>
      have hx := hl x (by simp)
      simp only [selectLoop, hx]
      exact ih (fun y hy => hl y (List.mem_cons_of_mem x hy))

/-- Witness for C4 at concrete inputs. -/
theorem c4_theorem_w :
    selectLoop env0 false ctx0 ([entryNo] ++ entryHash :: [entryAllEmpty]) =
      .ok (some entryHash) ∧
    selectLoop env0 false ctx0 [entryNo] = .ok none :=
  ⟨(c4_theorem env0 false ctx0).1 [entryNo] entryHash [entryAllEmpty]
      (by intro x hx; rw [List.mem_singleton.mp hx]; rfl) rfl,
   (c4_theorem env0 false ctx0).2 [entryNo]
      (by intro x hx; rw [List.mem_singleton.mp hx]; rfl)⟩

/-! ## Claim C5 -/

/-- Claim C5: an `all`-mode entry with an empty rule list evaluates true, and
an `any`-mode entry with an empty rule list evaluates false. -/
theorem c5_theorem (env : Env) (reraise : Bool) (ctx : Ctx) (s : SyntaxEntry)
    (h : s.rules = []) :
    (s.matchMode = some "all" → syntax_matches env reraise ctx s = .ok true) ∧
    (s.matchMode = some "any" → syntax_matches env reraise ctx s = .ok false) := by
  constructor
  · intro hm; unfold syntax_matches; rw [h, hm]; rfl
  · intro hm; unfold syntax_matches; rw [h, hm]; rfl

/-- Witness for C5 at concrete inputs. -/
theorem c5_theorem_w :
    syntax_matches env0 false ctx0 entryAllEmpty = .ok true ∧
    syntax_matches env0 false ctx0 entryAnyEmpty = .ok false :=
  ⟨(c5_theorem env0 false ctx0 entryAllEmpty rfl).1 rfl,
   (c5_theorem env0 false ctx0 entryAnyEmpty rfl).2 rfl⟩

/-! ## Claim C6 -/

/-- Claim C6: rule evaluation short-circuits in declared order.  The
instrumented loop agrees with the real one on the result, and when the
predicates before position `i` all evaluate true (all-mode) resp. false
(any-mode) and the predicate at `i` is the first decisive one, exactly
`i + 1` predicates are evaluated, whatever follows. -/
theorem c6_theorem (env : Env) (reraise : Bool) (ctx : Ctx) :
    (∀ (matchAll : Bool) (l : List Rule),
      (rulesLoopCount env reraise ctx matchAll l).1 =
        rulesLoop env reraise ctx matchAll l) ∧
    (∀ pre p rest, (∀ q ∈ pre, evalRule env reraise ctx q = .ok true) →
      evalRule env reraise ctx p = .ok false →
      rulesLoopCount env reraise ctx true (pre ++ p :: rest) =
        (.ok false, pre.length + 1)) ∧
    (∀ pre p rest, (∀ q ∈ pre, evalRule env reraise ctx q = .ok false) →
      evalRule env reraise ctx p = .ok true →
      rulesLoopCount env reraise ctx false (pre ++ p :: rest) =
        (.ok true, pre.length + 1)) := by
  refine ⟨?_, ?_, ?_⟩
  · intro mA l
    induction l with
    | nil => rfl
    | cons r rs ih =>
      cases hr : evalRule env reraise ctx r with
      | error e => simp [rulesLoopCount, rulesLoop, hr]
      | ok b => cases mA <;> cases b <;> simp [rulesLoopCount, rulesLoop, hr, ih]
  · intro pre p rest hpre hp
    induction pre with
    | nil => simp [rulesLoopCount, hp]
    | cons q qs ih =>
      have hq := hpre q (by simp)
      have ih' := ih (fun y hy => hpre y (List.mem_cons_of_mem q hy))
      simp [rulesLoopCount, hq, ih']
  · intro pre p rest hpre hp
    induction pre with
    | nil => simp [rulesLoopCount, hp]
    | cons q qs ih =>
      have hq := hpre q (by simp)
      have ih' := ih (fun y hy => hpre y (List.mem_cons_of_mem q hy))
      simp [rulesLoopCount, hq, ih']

/-- Witness for C6 at concrete inputs: the decisive rule is at position 1 and
exactly two of the three rules are evaluated. -/
theorem c6_theorem_w :
    (rulesLoopCount env0 false ctx0 true ([ruleTrue] ++ Rule.empty :: [ruleTrue])).1 =
      rulesLoop env0 false ctx0 true ([ruleTrue] ++ Rule.empty :: [ruleTrue]) ∧
    rulesLoopCount env0 false ctx0 true ([ruleTrue] ++ Rule.empty :: [ruleTrue]) =
      (.ok false, [ruleTrue].length + 1) ∧
    rulesLoopCount env0 false ctx0 false ([Rule.empty] ++ ruleTrue :: [Rule.empty]) =
      (.ok true, [Rule.empty].length + 1) :=
  ⟨(c6_theorem env0 false ctx0).1 true ([ruleTrue] ++ Rule.empty :: [ruleTrue]),
   (c6_theorem env0 false ctx0).2.1 [ruleTrue] Rule.empty [ruleTrue]
      (by intro q hq; rw [List.mem_singleton.mp hq]; rfl) rfl,
   (c6_theorem env0 false ctx0).2.2 [Rule.empty] ruleTrue [Rule.empty]
      (by intro q hq; rw [List.mem_singleton.mp hq]; rfl) rfl⟩

/-! ## Claim C7 -/

lemma selectLoop_append_of_ok_some (env : Env) (reraise : Bool) (ctx : Ctx)
    (u d : List SyntaxEntry) (e : SyntaxEntry)
    (h : selectLoop env reraise ctx u = .ok (some e)) :
    selectLoop env reraise ctx (u ++ d) = .ok (some e) := by
  induction u with
  | nil => simp [selectLoop] at h
  | cons x xs ih =>
    simp only [List.cons_append, selectLoop] at h ⊢
    rcases hx : syntax_matches env reraise ctx x with er | b
    · rw [hx] at h
      exact Except.noConfusion h
    · rw [hx] at h
      rcases b
      · exact ih h
      · exact h

/-- Claim C7: the resolved rule set is the user entries followed by the
default entries, each side's order preserved, with an absent list replaced by
the empty one; consequently a match among the user entries wins over anything
in the defaults. -/
theorem c7_theorem (env : Env) (reraise : Bool) (ctx : Ctx)
    (u d : List SyntaxEntry) (e : SyntaxEntry) :
    load_syntaxes (some u) (some d) = u ++ d ∧
    load_syntaxes none (some d) = d ∧
    load_syntaxes (some u) none = u ∧
    load_syntaxes none none = ([] : List SyntaxEntry) ∧
    (selectLoop env reraise ctx u = .ok (some e) →
      selectLoop env reraise ctx (load_syntaxes (some u) (some d)) = .ok (some e)) := by
  refine ⟨rfl, by simp [load_syntaxes], by simp [load_syntaxes], rfl, ?_⟩
  intro h
  exact selectLoop_append_of_ok_some env reraise ctx u d e h

/-- Witness for C7 at concrete inputs: a matching user entry is selected ahead
of the default entries. -/
theorem c7_theorem_w :
    selectLoop env0 false ctx0 (load_syntaxes (some [entryHash]) (some [entryNo])) =
      .ok (some entryHash) :=
  (c7_theorem env0 false ctx0 [entryHash] [entryNo] entryHash).2.2.2.2 rfl

/-! ## Claim C10 -/

/-- Claim C10: an entry is in all-mode only when its `match` field is exactly
the string `all`; any other value — absent included — yields any-mode
semantics, so with an empty rule list such an entry evaluates false. -/
theorem c10_theorem (env : Env) (reraise : Bool) (ctx : Ctx) (s : SyntaxEntry)
    (h : s.matchMode ≠ some "all") :
    syntax_matches env reraise ctx s = rulesLoop env reraise ctx false s.rules ∧
    (s.rules = [] → syntax_matches env reraise ctx s = .ok false) := by
  have hb : (s.matchMode == some "all") = false := by
    cases hbe : s.matchMode == some "all"
    · rfl
    · exact absurd (eq_of_beq hbe) h
  constructor
  · unfold syntax_matches; rw [hb]
  · intro hr; unfold syntax_matches; rw [hb, hr]; rfl

/-- Witness for C10 at a concrete input: no `match` key, empty rule list. -/
theorem c10_theorem_w :
    syntax_matches env0 false ctx0 entryNoneEmpty =
      rulesLoop env0 false ctx0 false entryNoneEmpty.rules ∧
    syntax_matches env0 false ctx0 entryNoneEmpty = .ok false :=
  ⟨(c10_theorem env0 false ctx0 entryNoneEmpty (by decide)).1,
   (c10_theorem env0 false ctx0 entryNoneEmpty (by decide)).2 rfl⟩

/-! ## Claim C8 -/

/-- Claim C8: syntax application is idempotent.  When the composed resource
path equals the active syntax, `set_syntax` is a no-op that returns `Skipped`
without consulting the loader (the result is the same for every
existence oracle and every strict-mode flag) and without changing the view;
consequently, whenever a call returns `Applied`, an immediately repeated call
returns `Skipped` and leaves the view as the first call left it. -/
theorem c8_theorem (reraise : Bool) (ex : String → Bool) (v : View) (name : String) :
    (v.currentSetting = some (resourcePath name) →
      ∀ (ex2 : String → Bool) (reraise2 : Bool),
        set_syntax reraise2 ex2 v name = (SetOutcome.skippedSame, v)) ∧
    (∀ o1 v1, set_syntax reraise ex v name = (o1, v1) →
      o1 = SetOutcome.applied →
      set_syntax reraise ex v1 name = (SetOutcome.skippedSame, v1)) := by
  constructor
  · intro hcur ex2 reraise2
    simp [ set_syntax, hcur]
  · intro o1 v1 heq happ
    unfold set_syntax at heq
    cases h1 : (v.currentSetting == some (resourcePath name)) <;> rw [h1] at heq
    · cases h2 : ex (resourcePath name) <;> rw [h2] at heq
      · simp at heq
        rw [← heq.1] at happ
        exact SetOutcome.noConfusion happ
      · simp at heq
        rw [← heq.2]
        simp [ set_syntax]
    · simp at heq
      rw [← heq.1] at happ
      exact SetOutcome.noConfusion happ

/-- Witness for C8 at concrete inputs: a first application yields `Applied`,
the repetition yields `Skipped`; and on a view already carrying the composed
path the call is a no-op even with a failing loader and strict mode on. -/
theorem c8_theorem_w :
    set_syntax true exNone vJSON "JSON" = (SetOutcome.skippedSame, vJSON) ∧
    set_syntax false exAll { v0 with currentSetting := some "Packages/JSON/JSON.tmLanguage" }
        "JSON" =
      (SetOutcome.skippedSame,
       { v0 with currentSetting := some "Packages/JSON/JSON.tmLanguage" }) :=
  ⟨(c8_theorem true exNone vJSON "JSON").1 rfl exNone true,
   (c8_theorem false exAll v0 "JSON").2 SetOutcome.applied
      { v0 with currentSetting := some "Packages/JSON/JSON.tmLanguage" } rfl rfl⟩

/-! ## Claim C9 -/

/-- Claim C9 as stated is FALSE in one corner: when the composed path equals
the currently active syntax but the resource does not exist, `set_syntax`
returns early as `Skipped` and never attempts the load, so no
"does not exist" diagnostic is printed (the `NotFound` branch is not taken). -/
theorem c9_counterexample :
    exNone (resourcePath "JSON") = false ∧
    set_syntax true exNone vJSON "JSON" = (SetOutcome.skippedSame, vJSON) ∧
    SetOutcome.skippedSame ≠ SetOutcome.notFound :=
  ⟨rfl, rfl, by decide⟩

/-- Claim C9 (amended): at the final application step a missing resource never
escalates regardless of the strict-mode flag (the outcome does not depend on
it at all) and the view's syntax is left unchanged; the diagnostic (`NotFound`)
is produced exactly when the composed path differs from the active syntax —
when they are equal the call skips without attempting the load. -/
theorem c9_theorem (reraise : Bool) (ex : String → Bool) (v : View) (name : String)
    (h : ex (resourcePath name) = false) :
    (v.currentSetting ≠ some (resourcePath name) →
      set_syntax reraise ex v name = (SetOutcome.notFound, v)) ∧
    ( set_syntax reraise ex v name).2 = v ∧
    set_syntax reraise ex v name = set_syntax true ex v name := by
  refine ⟨?_, ?_, rfl⟩
  · intro hne
    have h1 : (v.currentSetting == some (resourcePath name)) = false := by
      cases hbe : v.currentSetting == some (resourcePath name)
      · rfl
      · exact absurd (eq_of_beq hbe) hne
    simp [ set_syntax, h1, h]
  · unfold set_syntax
    cases h1 : (v.currentSetting == some (resourcePath name))
    · simp [h]
    · rfl

/-- Witness for C9's amended theorem at a concrete input. -/
theorem c9_theorem_w :
    (v0.currentSetting ≠ some (resourcePath "JSON") →
      set_syntax true exNone v0 "JSON" = (SetOutcome.notFound, v0)) ∧
    ( set_syntax true exNone v0 "JSON").2 = v0 ∧
    set_syntax true exNone v0 "JSON" = set_syntax true exNone v0 "JSON" :=
  c9_theorem true exNone v0 "JSON" rfl

end ApplySyntax
